import Mathlib

/-!
Shallow embedding of `stytra/hardware/cameras.py`: the `XimeaCamera` capture
process and the `FrameDispatcher` process, together with proofs about the
behaviour claimed in the specification.

Conventions of the embedding:
* wall-clock times and rates are exact rationals (`ℚ`);
* Python `int(...)` applied to a number is `pyInt` (truncation toward zero);
* the multiprocessing queues are lists consumed in FIFO order;
* exceptions (`AttributeError` on `None.put`, `ZeroDivisionError` on a
  zero elapsed time) are explicit `Except` errors of the step functions;
* `queue.get` returning a value or raising `Empty` after the timeout is an
  explicit input event (`QueueEvent.frame` / `QueueEvent.timeout`).
-/

/-- Python `int()` on an exact rational: truncation toward zero. -/
def pyInt (q : ℚ) : ℤ := if 0 ≤ q then ⌊q⌋ else ⌈q⌉

/-! ## The camera device and the control channel (`XimeaCamera.run`) -/

/-- The mutable device state touched by `XimeaCamera.run`:
`cam.set_exposure` stores an integer (the code passes `int(... * 1000)`),
`cam.set_gain` stores the raw numeric value from the control dictionary. -/
structure CamDevice where
  exposure : ℤ
  gain : ℚ
deriving Repr, DecidableEq

/-- A control dictionary as read from the control queue: optional
`exposure` (seconds) and `gain` entries.  Unrecognized keys are ignored by
the code, so they do not appear in the embedding. -/
structure ControlParams where
  exposure : Option ℚ
  gain : Option ℚ
deriving Repr, DecidableEq

/-- Lines 27–30 of `cameras.py`: if `exposure` is present, call
`set_exposure(int(exposure * 1000))`; if `gain` is present, call
`set_gain(gain)`.  Each field is applied independently. -/
def apply_control_params (dev : CamDevice) (u : ControlParams) : CamDevice :=
  let dev1 := match u.exposure with
    | some e => { dev with exposure := pyInt (e * 1000) }
    | none => dev
  match u.gain with
  | some g => { dev1 with gain := g }
  | none => dev1

/-- The state threaded through the `XimeaCamera.run` loop: the device, the
FIFO control queue contents, the frames the device will deliver (in order),
and the frames pushed to the frame queue so far. -/
structure XimeaState (α : Type) where
  dev : CamDevice
  control : List ControlParams
  pending : List α
  pushed : List α
deriving Repr, DecidableEq

/-- Lines 24–32: one poll of the control queue with a tiny timeout.
A nonempty queue yields its oldest entry (FIFO), which is applied to the
device; an empty queue raises `Empty`, which is swallowed (`pass`). -/
def ximea_poll_control (st : XimeaState α) : XimeaState α :=
  match st.control with
  | [] => st
  | u :: rest => { st with dev := apply_control_params st.dev u, control := rest }

/-- Lines 35–37: blocking read of one image from the device followed by a
put onto the frame queue.  (If the device has no further frame the real
call blocks; the embedding leaves the state unchanged in that case.) -/
def ximea_capture_step (st : XimeaState α) : XimeaState α :=
  match st.pending with
  | [] => st
  | a :: rest => { st with pending := rest, pushed := st.pushed ++ [a] }

/-- Lines 22–37, the `while True` loop of `XimeaCamera.run`.  The list of
booleans gives the value `signal.is_set()` returns at each iteration's
check (the check sits after the control poll and before the device read).
The returned boolean records whether the loop exited via the signal. -/
def ximea_run : List Bool → XimeaState α → XimeaState α × Bool
  | [], st => (st, false)
  | b :: bs, st =>
      let st1 := ximea_poll_control st
      if b then (st1, true)
      else ximea_run bs (ximea_capture_step st1)

/-! ### Basic lemmas about the camera loop -/

lemma ximea_poll_control_control (st : XimeaState α) :
    (ximea_poll_control st).control = st.control.drop 1 := by
  cases h : st.control <;> simp [ximea_poll_control, h]

lemma ximea_poll_control_pushed (st : XimeaState α) :
    (ximea_poll_control st).pushed = st.pushed := by
  cases h : st.control <;> simp [ximea_poll_control, h]

lemma ximea_poll_control_pending (st : XimeaState α) :
    (ximea_poll_control st).pending = st.pending := by
  cases h : st.control <;> simp [ximea_poll_control, h]

lemma ximea_poll_control_dev (st : XimeaState α) :
    (ximea_poll_control st).dev
      = (st.control.take 1).foldl apply_control_params st.dev := by
  cases h : st.control <;> simp [ximea_poll_control, h]

lemma ximea_capture_step_pushed (st : XimeaState α) :
    (ximea_capture_step st).pushed = st.pushed ++ st.pending.take 1 := by
  cases h : st.pending <;> simp [ximea_capture_step, h]

lemma ximea_capture_step_pending (st : XimeaState α) :
    (ximea_capture_step st).pending = st.pending.drop 1 := by
  cases h : st.pending <;> simp [ximea_capture_step, h]

lemma ximea_capture_step_control (st : XimeaState α) :
    (ximea_capture_step st).control = st.control := by
  cases h : st.pending <;> simp [ximea_capture_step, h]

lemma ximea_capture_step_dev (st : XimeaState α) :
    (ximea_capture_step st).dev = st.dev := by
  cases h : st.pending <;> simp [ximea_capture_step, h]

lemma ximea_run_true_cons (bs : List Bool) (st : XimeaState α) :
    ximea_run (true :: bs) st = (ximea_poll_control st, true) := rfl

lemma ximea_run_false_cons (bs : List Bool) (st : XimeaState α) :
    ximea_run (false :: bs) st
      = ximea_run bs (ximea_capture_step (ximea_poll_control st)) := rfl

/-- Running the camera loop for `n` iterations with the signal never set
applies the first `n` queued control updates to the device, in FIFO
order. -/
lemma ximea_run_false_dev (n : ℕ) :
    ∀ st : XimeaState α,
      ((ximea_run (List.replicate n false) st).1).dev
        = (st.control.take n).foldl apply_control_params st.dev := by
  induction n with
  | zero => intro st; simp [ximea_run]
  | succ n ih =>
      intro st
      rw [List.replicate_succ]
      show ((ximea_run (List.replicate n false)
        (ximea_capture_step (ximea_poll_control st))).1).dev = _
      rw [ih]
      rcases h : st.control with _ | ⟨u, rest⟩
      · simp [ximea_capture_step_control, ximea_poll_control_control, h,
          ximea_capture_step_dev, ximea_poll_control_dev]
      · simp [ximea_capture_step_control, ximea_poll_control_control, h,
          ximea_capture_step_dev, ximea_poll_control_dev]

/-- `apply_control_params` with an `exposure` field stores the converted
value, whatever was stored before. -/
lemma apply_control_params_exposure (dev : CamDevice) (u : ControlParams)
    (e : ℚ) (he : u.exposure = some e) :
    (apply_control_params dev u).exposure = pyInt (e * 1000) := by
  rcases u with ⟨ue, ug⟩
  cases ug <;> simp_all [apply_control_params]

/-- `pyInt` agrees with the floor on nonnegative rationals. -/
lemma pyInt_of_nonneg {q : ℚ} (h : 0 ≤ q) : pyInt q = ⌊q⌋ := by
  simp [pyInt, h]

/-! ## Claim C8 — fields omitted from an update never overwrite values -/

/-- C8: applying a `ParameterUpdate` leaves every device parameter not
named in the update unchanged: an update without an `exposure` entry keeps
the device exposure, and an update without a `gain` entry keeps the device
gain. -/
theorem C8_omitted_fields_preserved (dev : CamDevice) (u : ControlParams) :
    (u.exposure = none → (apply_control_params dev u).exposure = dev.exposure)
    ∧ (u.gain = none → (apply_control_params dev u).gain = dev.gain) := by
  rcases u with ⟨ue, ug⟩
  constructor
  · intro he
    cases ug <;> simp_all [apply_control_params]
  · intro hg
    cases ue <;> simp_all [apply_control_params]

/-- Witness for C8: the spec's scenario — after exposure was set to 10, the
update `{gain: 4}` leaves the exposure at 10, and an exposure-only update
leaves the gain alone. -/
theorem C8_witness :
    (apply_control_params ⟨10, 0⟩ ⟨none, some 4⟩).exposure = 10
    ∧ (apply_control_params ⟨10, 7⟩ ⟨some 1, none⟩).gain = 7 := by
  refine ⟨?_, ?_⟩
  · exact (C8_omitted_fields_preserved ⟨10, 0⟩ ⟨none, some 4⟩).1 rfl
  · exact (C8_omitted_fields_preserved ⟨10, 7⟩ ⟨some 1, none⟩).2 rfl

/-! ## Claim C9 — exposure conversion -/

/-- C9 counterexample: the code passes `int(exposure * 1000)` to the
device.  For `exposure = 1/400` (0.0025 s) the device receives 2, while
`v × 1000 = 5/2`; so the value passed does not equal `v × 1000` as the
claim states. -/
theorem C9_counterexample :
    (apply_control_params ⟨1000, 0⟩ ⟨some (1/400), none⟩).exposure = 2
    ∧ ((1 : ℚ)/400) * 1000 = 5/2
    ∧ ((2 : ℚ) ≠ 5/2) := by
  refine ⟨?_, by norm_num, by norm_num⟩
  show (apply_control_params ⟨1000, 0⟩ ⟨some (1/400), none⟩).exposure = 2
  rw [apply_control_params_exposure ⟨1000, 0⟩ ⟨some (1/400), none⟩ (1/400) rfl,
    pyInt_of_nonneg (by norm_num)]
  norm_num

/-- C9 amended: when a `ParameterUpdate` with `exposure` value `v ≥ 0`
(in seconds) is applied, the device receives `⌊v × 1000⌋` (Python `int`
truncation); in particular for `v = 0.01` the device exposure becomes
10. -/
theorem C9_amended (dev : CamDevice) (u : ControlParams) (v : ℚ)
    (hv : 0 ≤ v) (hu : u.exposure = some v) :
    (apply_control_params dev u).exposure = ⌊v * 1000⌋ := by
  rw [apply_control_params_exposure dev u v hu]
  exact pyInt_of_nonneg (by positivity)

/-- Witness for C9: the spec's scenario `{exposure: 0.01}` yields a device
exposure of 10. -/
theorem C9_witness :
    (apply_control_params ⟨1000, 0⟩ ⟨some (1/100), none⟩).exposure = 10 := by
  rw [C9_amended ⟨1000, 0⟩ ⟨some (1/100), none⟩ (1/100) (by norm_num) rfl]
  norm_num

/-! ## Claim C4 — two updates before the next poll -/

/-- Concrete camera state for the C4 counterexample: exposure initialized
to 1000 (line 21), two updates already queued — first `{exposure: 0.02}`,
then `{exposure: 0.05}` — before the loop polls the control queue. -/
def c4_state : XimeaState ℕ :=
  { dev := { exposure := 1000, gain := 0 }
  , control := [⟨some (1/50), none⟩, ⟨some (1/20), none⟩]
  , pending := [7, 8]
  , pushed := [] }

/-- C4 counterexample: with the two updates of `c4_state` queued before the
first poll, the first loop iteration applies the OLDER update — the device
exposure becomes 20 (= int(0.02·1000)), the older update's value, not 50,
the newer one's.  The control channel is a FIFO queue, so the older
unconsumed update is not superseded: its field values are applied. -/
theorem C4_counterexample :
    ((ximea_run [false] c4_state).1).dev.exposure = 20
    ∧ pyInt ((1/50 : ℚ) * 1000) = 20
    ∧ pyInt ((1/20 : ℚ) * 1000) = 50
    ∧ (20 : ℤ) ≠ 50 := by
  have h20 : pyInt ((1/50 : ℚ) * 1000) = 20 := by
    rw [pyInt_of_nonneg (by norm_num)]; norm_num
  have h50 : pyInt ((1/20 : ℚ) * 1000) = 50 := by
    rw [pyInt_of_nonneg (by norm_num)]; norm_num
  refine ⟨?_, h20, h50, by norm_num⟩
  show ((ximea_run [false] c4_state).1).dev.exposure = 20
  simp only [ximea_run, ximea_poll_control, ximea_capture_step, c4_state,
    apply_control_params]
  exact h20

/-- C4 amended: the control channel is a FIFO queue read once per loop
iteration, so when two updates are queued both are applied, oldest first;
after two iterations the device state is the result of applying the older
then the newer update, and on overlapping fields the newest value wins
(eventual last-write-wins). -/
theorem C4_amended (st : XimeaState ℕ) (u1 u2 : ControlParams) (e2 : ℚ)
    (hc : st.control = [u1, u2]) (n : ℕ) (hn : 2 ≤ n) :
    ((ximea_run (List.replicate n false) st).1).dev
      = apply_control_params (apply_control_params st.dev u1) u2
    ∧ (u2.exposure = some e2 →
        ((ximea_run (List.replicate n false) st).1).dev.exposure
          = pyInt (e2 * 1000)) := by
  have htake : st.control.take n = [u1, u2] := by
    rw [hc]
    exact List.take_of_length_le (by simpa using hn)
  have hdev := ximea_run_false_dev n st
  rw [htake] at hdev
  simp only [List.foldl] at hdev
  refine ⟨hdev, ?_⟩
  intro he
  rw [hdev]
  exact apply_control_params_exposure _ u2 e2 he

/-- Witness for C4 amended: the concrete `c4_state` after two quiet
iterations holds the newer update's exposure, 50. -/
theorem C4_witness :
    ((ximea_run (List.replicate 2 false) c4_state).1).dev
      = apply_control_params
          (apply_control_params c4_state.dev ⟨some (1/50), none⟩)
          ⟨some (1/20), none⟩
    ∧ ((ximea_run (List.replicate 2 false) c4_state).1).dev.exposure
        = pyInt ((1/20 : ℚ) * 1000) := by
  have h := C4_amended c4_state ⟨some (1/50), none⟩ ⟨some (1/20), none⟩
    (1/20) rfl 2 (by decide)
  exact ⟨h.1, h.2 rfl⟩

/-! ## The frame dispatcher (`FrameDispatcher.run`) -/

/-- Exceptions the dispatcher loop body can raise: `AttributeError` from
`None.put(...)` when `output_queue` is `None` but a processing function is
set, and `ZeroDivisionError` from the framerate computation when the
elapsed window time is zero. -/
inductive PyErr where
  | attributeError
  | zeroDivisionError
deriving Repr, DecidableEq

/-- `n_fps_frames = 10` (line 58): the throughput-measurement window. -/
def n_fps_frames : ℕ := 10

/-- The timeout, in seconds, of the dispatcher's frame-queue read
(`self.frame_queue.get(timeout=5)`, line 63). -/
def frame_queue_timeout : ℚ := 5

/-- The dispatcher state threaded through the loop of
`FrameDispatcher.run`: the local window counter `i`, the decimation-phase
counter `self.i`, the stride `every_x`, and the framerate bookkeeping. -/
structure DispState where
  i : ℕ
  self_i : ℕ
  every_x : ℕ
  current_framerate : ℚ
  previous_time : ℚ
deriving Repr, DecidableEq

/-- The state at the top of the loop: `self.i = 0` (from `__init__`),
`i = 0`, `current_framerate = 100`, `every_x = 10`, and
`previous_time = datetime.now()` at loop entry (lines 51, 56–60). -/
def init_disp_state (t0 : ℚ) : DispState :=
  { i := 0, self_i := 0, every_x := 10, current_framerate := 100
  , previous_time := t0 }

/-- Dispatcher configuration from `FrameDispatcher.__init__`: the optional
processing function, whether an output queue was supplied, the target
display rate `gui_framerate`, and the frame transform applied before the
display put (`np.swapaxes(frame, 0, 1)`). -/
structure DispCfg (α β : Type) where
  processing_function : Option (α → β)
  output_queue : Bool
  gui_framerate : ℚ
  swapaxes : α → α

/-- Lines 67–72: recompute `current_framerate` and `every_x` at the end of
a measurement window.  `every_x = max(int(current_framerate /
gui_framerate), 1)` and `previous_time` is reset to the current time. -/
def recompute_framerate (D : ℚ) (s : DispState) (now : ℚ) : DispState :=
  let r : ℚ := (n_fps_frames : ℚ) / (now - s.previous_time)
  { s with current_framerate := r
         , every_x := (max (pyInt (r / D)) 1).toNat
         , previous_time := now }

/-- The guarded framerate refresh (lines 67–72): it runs only when
`i == n_fps_frames - 1`, and raises `ZeroDivisionError` when the elapsed
window time is zero. -/
def framerate_refresh (D : ℚ) (s : DispState) (now : ℚ) :
    Except PyErr DispState :=
  if s.i = n_fps_frames - 1 then
    if now - s.previous_time = 0 then Except.error PyErr.zeroDivisionError
    else Except.ok (recompute_framerate D s now)
  else Except.ok s

/-- Lines 67–77, after the processing put: framerate refresh, window
counter update `i = (i+1) % n_fps_frames`, the display put when
`self.i == 0`, and the phase update `self.i = (self.i+1) % every_x`
(with the possibly freshly recomputed `every_x`).  Returns the frames put
on the gui queue and either the next state or the raised exception. -/
def dispatch_tail (D : ℚ) (sw : α → α) (s : DispState) (a : α) (now : ℚ) :
    List α × Except PyErr DispState :=
  match framerate_refresh D s now with
  | Except.error e => ([], Except.error e)
  | Except.ok s1 =>
      let s2 : DispState := { s1 with i := (s1.i + 1) % n_fps_frames }
      ( if s1.self_i = 0 then [sw a] else []
      , Except.ok { s2 with self_i := (s1.self_i + 1) % s1.every_x } )

/-- One full loop body of `FrameDispatcher.run` on a popped frame `a` at
wall-clock time `now` (lines 63–77).  The first component is the list of
values put on the output queue, the second the frames put on the gui
queue, the third the next state or the exception.  A value already put
before an exception is raised is kept. -/
def dispatch_step (cfg : DispCfg α β) (s : DispState) (a : α) (now : ℚ) :
    List β × List α × Except PyErr DispState :=
  match cfg.processing_function with
  | some f =>
      if cfg.output_queue then
        let tl := dispatch_tail cfg.gui_framerate cfg.swapaxes s a now
        ([f a], tl.1, tl.2)
      else ([], [], Except.error PyErr.attributeError)
  | none =>
      let tl := dispatch_tail cfg.gui_framerate cfg.swapaxes s a now
      ([], tl.1, tl.2)

/-- One observable event of the frame-queue read: either a frame arrives
(with the wall-clock time `datetime.now()` would report in that
iteration), or the 5-second wait expires and `Empty` is raised. -/
inductive QueueEvent (α : Type) where
  | frame (a : α) (now : ℚ)
  | timeout
deriving Repr, DecidableEq

/-- How a dispatcher run ended: `cleanEOS` is the `except Empty: break`
path (graceful end of stream), `pending` means the supplied event list was
exhausted with the loop still running, `err` is an uncaught exception. -/
inductive RunEnd where
  | cleanEOS
  | pending
  | err (e : PyErr)
deriving Repr, DecidableEq

/-- The observable outcome of running the dispatcher loop over a list of
queue events: final state, values put on the output queue, frames put on
the gui queue, and how the run ended. -/
structure DispatchResult (α β : Type) where
  final : DispState
  outs : List β
  guis : List α
  ended : RunEnd
deriving Repr, DecidableEq

/-- The `while True` loop of `FrameDispatcher.run` over a list of queue
events.  A timeout event triggers the `except Empty` break; an exception
in the body aborts the run with that error; otherwise the loop continues
with the next state. -/
def dispatch_run (cfg : DispCfg α β) : DispState → List (QueueEvent α) →
    DispatchResult α β
  | s, [] => ⟨s, [], [], RunEnd.pending⟩
  | s, QueueEvent.timeout :: _ => ⟨s, [], [], RunEnd.cleanEOS⟩
  | s, QueueEvent.frame a now :: evs =>
      let st := dispatch_step cfg s a now
      match st.2.2 with
      | Except.error e => ⟨s, st.1, st.2.1, RunEnd.err e⟩
      | Except.ok s1 =>
          let r := dispatch_run cfg s1 evs
          ⟨r.final, st.1 ++ r.outs, st.2.1 ++ r.guis, r.ended⟩

/-- The trace of dispatcher states along a run: the initial state and each
successor state, stopping where the run stops. -/
def dispatch_states (cfg : DispCfg α β) : DispState → List (QueueEvent α) →
    List DispState
  | s, [] => [s]
  | s, QueueEvent.timeout :: _ => [s]
  | s, QueueEvent.frame a now :: evs =>
      match (dispatch_step cfg s a now).2.2 with
      | Except.error _ => [s]
      | Except.ok s1 => s :: dispatch_states cfg s1 evs

/-- Frame events from a list of (frame, arrival time) pairs. -/
def frame_events (pairs : List (α × ℚ)) : List (QueueEvent α) :=
  pairs.map fun p => QueueEvent.frame p.1 p.2

/-! ### Step characterization lemmas -/

lemma framerate_refresh_ok_fields {D : ℚ} {s s1 : DispState} {now : ℚ}
    (h : framerate_refresh D s now = Except.ok s1) :
    s1.self_i = s.self_i ∧ s1.i = s.i := by
  unfold framerate_refresh at h
  split at h
  · split at h
    · cases h
    · cases h
      exact ⟨rfl, rfl⟩
  · cases h
    exact ⟨rfl, rfl⟩

/-- When the loop body does not raise, the gui put and the next state are
exactly: put when `self.i = 0`, then advance the phase modulo the (new)
stride; the stride and framerate come from the refresh. -/
lemma dispatch_tail_ok {D : ℚ} {sw : α → α} {s : DispState} {a : α}
    {now : ℚ} {gs : List α} {s' : DispState}
    (h : dispatch_tail D sw s a now = (gs, Except.ok s')) :
    gs = (if s.self_i = 0 then [sw a] else [])
    ∧ s'.self_i = (s.self_i + 1) % s'.every_x
    ∧ ∃ s1, framerate_refresh D s now = Except.ok s1
        ∧ s'.every_x = s1.every_x
        ∧ s'.i = (s1.i + 1) % n_fps_frames
        ∧ s'.current_framerate = s1.current_framerate
        ∧ s'.previous_time = s1.previous_time := by
  unfold dispatch_tail at h
  cases hr : framerate_refresh D s now with
  | error e => rw [hr] at h; cases h
  | ok s1 =>
      rw [hr] at h
      obtain ⟨hself, hii⟩ := framerate_refresh_ok_fields hr
      obtain ⟨hgs, hs'⟩ := Prod.mk.injEq .. ▸ h
      cases hs'
      refine ⟨by rw [← hgs, hself], by simp [hself], s1, rfl, rfl, rfl, rfl, rfl⟩

/-- With a processing function and an output queue, every step puts
exactly the processed frame on the output queue (even when the body then
raises). -/
lemma dispatch_step_outs_some {cfg : DispCfg α β} {f : α → β}
    (hp : cfg.processing_function = some f) (ho : cfg.output_queue = true)
    (s : DispState) (a : α) (now : ℚ) :
    (dispatch_step cfg s a now).1 = [f a] := by
  simp [dispatch_step, hp, ho]

/-- Without a processing function, no step puts anything on the output
queue. -/
lemma dispatch_step_outs_none {cfg : DispCfg α β}
    (hp : cfg.processing_function = none)
    (s : DispState) (a : α) (now : ℚ) :
    (dispatch_step cfg s a now).1 = [] := by
  simp [dispatch_step, hp]

/-- For a well-formed configuration (no processing function, or an output
queue present) the gui/state part of the step is `dispatch_tail`. -/
lemma dispatch_step_snd {cfg : DispCfg α β}
    (hwf : cfg.processing_function = none ∨ cfg.output_queue = true)
    (s : DispState) (a : α) (now : ℚ) :
    (dispatch_step cfg s a now).2
      = dispatch_tail cfg.gui_framerate cfg.swapaxes s a now := by
  rcases hwf with hp | ho
  · simp [dispatch_step, hp]
  · cases hp : cfg.processing_function with
    | none => simp [dispatch_step, hp]
    | some f => simp [dispatch_step, hp, ho]

/-- If a step succeeded, the configuration was well-formed, and the
gui/state part is `dispatch_tail`. -/
lemma dispatch_step_ok_snd {cfg : DispCfg α β} {s s' : DispState} {a : α}
    {now : ℚ} (h : (dispatch_step cfg s a now).2.2 = Except.ok s') :
    (dispatch_step cfg s a now).2
      = dispatch_tail cfg.gui_framerate cfg.swapaxes s a now := by
  cases hp : cfg.processing_function with
  | none => exact dispatch_step_snd (Or.inl hp) s a now
  | some f =>
      cases ho : cfg.output_queue with
      | true => exact dispatch_step_snd (Or.inr ho) s a now
      | false => simp [dispatch_step, hp, ho] at h

/-! ## Claim C1 — the stride formula -/

/-- Configuration for the C1 counterexample run: default target display
rate 30, no processing. -/
def c1_cfg : DispCfg ℕ ℕ :=
  { processing_function := none, output_queue := false
  , gui_framerate := 30, swapaxes := id }

/-- Ten frames; the tenth arrives 1/5 s after loop start, so the first
measurement window yields 10 / (1/5) = 50 frames/s. -/
def c1_events : List (QueueEvent ℕ) :=
  [ QueueEvent.frame 0 0, QueueEvent.frame 1 0, QueueEvent.frame 2 0
  , QueueEvent.frame 3 0, QueueEvent.frame 4 0, QueueEvent.frame 5 0
  , QueueEvent.frame 6 0, QueueEvent.frame 7 0, QueueEvent.frame 8 0
  , QueueEvent.frame 9 (1/5) ]

/-- C1 counterexample: running the dispatcher from its initial state over
`c1_events` measures a throughput of R = 50 frames/s against the target
D = 30; the stride stored after the refresh is `max(int(50/30), 1) = 1`,
but the claimed formula gives `max(1, round(50/30)) = 2`. -/
theorem C1_counterexample :
    (dispatch_run c1_cfg (init_disp_state 0) c1_events).final.current_framerate
        = 50
    ∧ (dispatch_run c1_cfg (init_disp_state 0) c1_events).final.every_x = 1
    ∧ c1_cfg.gui_framerate = 30
    ∧ max 1 (round ((50 : ℚ) / 30)) = 2
    ∧ (1 : ℤ) ≠ 2 := by
  refine ⟨?_, ?_, rfl, ?_, by norm_num⟩
  · norm_num [c1_events, dispatch_run, dispatch_step, dispatch_tail,
      framerate_refresh, recompute_framerate, init_disp_state, c1_cfg,
      n_fps_frames, pyInt]
  · norm_num [c1_events, dispatch_run, dispatch_step, dispatch_tail,
      framerate_refresh, recompute_framerate, init_disp_state, c1_cfg,
      n_fps_frames, pyInt]
  · rw [round_eq]; norm_num

/-- C1 amended: whenever the refresh fires (window counter at
`n_fps_frames - 1`) with measured throughput R > 0 against target D > 0,
the stride stored afterwards is `max(1, ⌊R / D⌋)` — Python `int()`
truncation, not rounding — and the stored framerate is R. -/
theorem C1_amended {α β : Type} (cfg : DispCfg α β) (s : DispState)
    (a : α) (now : ℚ) (R D : ℚ)
    (hR : 0 < R) (hD : 0 < D) (hDf : cfg.gui_framerate = D)
    (hi : s.i = n_fps_frames - 1)
    (hrate : (n_fps_frames : ℚ) / (now - s.previous_time) = R)
    (hwf : cfg.processing_function = none ∨ cfg.output_queue = true) :
    ∃ s', (dispatch_step cfg s a now).2.2 = Except.ok s'
      ∧ s'.current_framerate = R
      ∧ (s'.every_x : ℤ) = max 1 ⌊R / D⌋ := by
  have helap : now - s.previous_time ≠ 0 := by
    intro h0
    rw [h0, div_zero] at hrate
    exact hR.ne' hrate.symm
  have hrf : framerate_refresh cfg.gui_framerate s now
      = Except.ok (recompute_framerate cfg.gui_framerate s now) := by
    simp [framerate_refresh, hi, helap]
  have hsnd := dispatch_step_snd hwf s a now
  have h22 : (dispatch_step cfg s a now).2.2
      = (dispatch_tail cfg.gui_framerate cfg.swapaxes s a now).2 := by
    rw [hsnd]
  rw [h22]
  unfold dispatch_tail
  rw [hrf]
  refine ⟨_, rfl, ?_, ?_⟩
  · show (recompute_framerate cfg.gui_framerate s now).current_framerate = R
    simp only [recompute_framerate]
    exact hrate
  · show ((recompute_framerate cfg.gui_framerate s now).every_x : ℤ)
        = max 1 ⌊R / D⌋
    simp only [recompute_framerate]
    rw [hrate, hDf]
    rw [pyInt_of_nonneg (div_nonneg hR.le hD.le)]
    rw [Int.toNat_of_nonneg (le_trans zero_le_one (le_max_right _ 1))]
    exact max_comm _ _

/-- Witness for C1 amended: the counterexample scenario R = 50, D = 30
from the state just before the tenth frame gives stride
`max(1, ⌊5/3⌋) = 1`. -/
theorem C1_witness :
    ∃ s', (dispatch_step c1_cfg ⟨9, 9, 10, 100, 0⟩ 9 (1/5)).2.2
        = Except.ok s'
      ∧ s'.current_framerate = 50
      ∧ (s'.every_x : ℤ) = max 1 ⌊(50 : ℚ) / 30⌋ := by
  exact C1_amended c1_cfg ⟨9, 9, 10, 100, 0⟩ 9 (1/5) 50 30
    (by norm_num) (by norm_num) rfl rfl
    (by norm_num [n_fps_frames]) (Or.inl rfl)

/-! ### Run equation lemmas -/

lemma frame_events_nil : frame_events ([] : List (α × ℚ)) = [] := rfl

lemma frame_events_cons (p : α × ℚ) (pairs : List (α × ℚ)) :
    frame_events (p :: pairs)
      = QueueEvent.frame p.1 p.2 :: frame_events pairs := rfl

lemma dispatch_run_nil (cfg : DispCfg α β) (s : DispState) :
    dispatch_run cfg s [] = ⟨s, [], [], RunEnd.pending⟩ := rfl

lemma dispatch_run_timeout (cfg : DispCfg α β) (s : DispState)
    (evs : List (QueueEvent α)) :
    dispatch_run cfg s (QueueEvent.timeout :: evs)
      = ⟨s, [], [], RunEnd.cleanEOS⟩ := rfl

lemma dispatch_run_frame_ok {cfg : DispCfg α β} {s s1 : DispState} {a : α}
    {now : ℚ} (evs : List (QueueEvent α))
    (h : (dispatch_step cfg s a now).2.2 = Except.ok s1) :
    dispatch_run cfg s (QueueEvent.frame a now :: evs)
      = ⟨(dispatch_run cfg s1 evs).final,
         (dispatch_step cfg s a now).1 ++ (dispatch_run cfg s1 evs).outs,
         (dispatch_step cfg s a now).2.1 ++ (dispatch_run cfg s1 evs).guis,
         (dispatch_run cfg s1 evs).ended⟩ := by
  simp only [dispatch_run]
  rw [h]

lemma dispatch_run_frame_err {cfg : DispCfg α β} {s : DispState} {a : α}
    {now : ℚ} {e : PyErr} (evs : List (QueueEvent α))
    (h : (dispatch_step cfg s a now).2.2 = Except.error e) :
    dispatch_run cfg s (QueueEvent.frame a now :: evs)
      = ⟨s, (dispatch_step cfg s a now).1,
         (dispatch_step cfg s a now).2.1, RunEnd.err e⟩ := by
  simp only [dispatch_run]
  rw [h]

lemma dispatch_states_frame_ok {cfg : DispCfg α β} {s s1 : DispState}
    {a : α} {now : ℚ} (evs : List (QueueEvent α))
    (h : (dispatch_step cfg s a now).2.2 = Except.ok s1) :
    dispatch_states cfg s (QueueEvent.frame a now :: evs)
      = s :: dispatch_states cfg s1 evs := by
  simp only [dispatch_states]
  rw [h]

/-- The initial state of a run is always on its state trace. -/
lemma self_mem_dispatch_states (cfg : DispCfg α β) (s : DispState) :
    ∀ evs : List (QueueEvent α), s ∈ dispatch_states cfg s evs := by
  intro evs
  cases evs with
  | nil => simp [dispatch_states]
  | cons e evs =>
      cases e with
      | timeout => simp [dispatch_states]
      | frame a now =>
          cases h : (dispatch_step cfg s a now).2.2 with
          | error e => simp [dispatch_states, h]
          | ok s1 => simp [dispatch_states, h]

/-! ## Claim C2 — processing is exhaustive, in order, exactly once -/

/-- C2: with a processing function and an output queue configured, a run
that consumes frames F1…Fn (no starvation timeout, no exception) puts
exactly `f F1, …, f Fn` on the output queue — same order, no duplicates,
no skips. -/
theorem C2_processing_exact_order {α β : Type} (cfg : DispCfg α β)
    (f : α → β)
    (hp : cfg.processing_function = some f) (ho : cfg.output_queue = true)
    (pairs : List (α × ℚ)) (s : DispState)
    (hend : (dispatch_run cfg s (frame_events pairs)).ended
        = RunEnd.pending) :
    (dispatch_run cfg s (frame_events pairs)).outs
      = pairs.map fun p => f p.1 := by
  induction pairs generalizing s with
  | nil => simp [frame_events_nil, dispatch_run_nil]
  | cons p rest ih =>
      rw [frame_events_cons] at hend ⊢
      cases h : (dispatch_step cfg s p.1 p.2).2.2 with
      | error e =>
          rw [dispatch_run_frame_err _ h] at hend
          cases hend
      | ok s1 =>
          rw [dispatch_run_frame_ok _ h] at hend ⊢
          simp only [List.map_cons]
          rw [dispatch_step_outs_some hp ho, ih s1 hend]
          rfl

/-- Witness for C2: a concrete two-frame run with processing `n ↦ n + 1`
outputs `[4, 8]` for frames `[3, 7]`. -/
def c2_cfg : DispCfg ℕ ℕ :=
  { processing_function := some (fun n => n + 1), output_queue := true
  , gui_framerate := 30, swapaxes := id }

theorem C2_witness :
    (dispatch_run c2_cfg (init_disp_state 0)
        (frame_events [(3, 1), (7, 2)])).outs
      = [(3 : ℕ), (7 : ℕ)].map (fun n => n + 1) := by
  refine C2_processing_exact_order c2_cfg (fun n => n + 1) rfl rfl
    [(3, 1), (7, 2)] (init_disp_state 0) ?_
  norm_num [frame_events, dispatch_run, dispatch_step, dispatch_tail,
    framerate_refresh, recompute_framerate, init_disp_state, c2_cfg,
    n_fps_frames]

/-! ## Claim C6 — queue starvation is a clean end of stream -/

/-- C6: if the frame queue stays empty past the dispatcher's bounded wait
(5 seconds, `frame_queue_timeout`), the `Empty` exception is caught and
the loop breaks: the run ends `cleanEOS` — not with an error — and the
outputs and state are exactly those accumulated before the timeout. -/
theorem C6_starvation_clean_eos {α β : Type} (cfg : DispCfg α β)
    (pairs : List (α × ℚ)) (rest : List (QueueEvent α)) (s : DispState)
    (hend : (dispatch_run cfg s (frame_events pairs)).ended
        = RunEnd.pending) :
    (dispatch_run cfg s
        (frame_events pairs ++ QueueEvent.timeout :: rest)).ended
      = RunEnd.cleanEOS
    ∧ (dispatch_run cfg s
        (frame_events pairs ++ QueueEvent.timeout :: rest)).outs
      = (dispatch_run cfg s (frame_events pairs)).outs
    ∧ (dispatch_run cfg s
        (frame_events pairs ++ QueueEvent.timeout :: rest)).guis
      = (dispatch_run cfg s (frame_events pairs)).guis
    ∧ (dispatch_run cfg s
        (frame_events pairs ++ QueueEvent.timeout :: rest)).final
      = (dispatch_run cfg s (frame_events pairs)).final
    ∧ frame_queue_timeout = 5 := by
  induction pairs generalizing s with
  | nil =>
      simp [frame_events_nil, dispatch_run_nil, dispatch_run_timeout,
        frame_queue_timeout]
  | cons p restp ih =>
      rw [frame_events_cons] at hend ⊢
      cases h : (dispatch_step cfg s p.1 p.2).2.2 with
      | error e =>
          rw [dispatch_run_frame_err _ h] at hend
          cases hend
      | ok s1 =>
          rw [dispatch_run_frame_ok _ h] at hend
          rw [List.cons_append, dispatch_run_frame_ok _ h,
            dispatch_run_frame_ok _ h]
          obtain ⟨he,ho2, hg, hf, ht⟩ := ih s1 hend
          exact ⟨he, by rw [ho2], by rw [hg], hf, ht⟩

/-- Witness for C6: a one-frame run followed by a starvation timeout ends
with a clean end of stream. -/
theorem C6_witness :
    (dispatch_run c2_cfg (init_disp_state 0)
        (frame_events [(3, 1)] ++ QueueEvent.timeout :: [])).ended
      = RunEnd.cleanEOS
    ∧ (dispatch_run c2_cfg (init_disp_state 0)
        (frame_events [(3, 1)] ++ QueueEvent.timeout :: [])).outs
      = (dispatch_run c2_cfg (init_disp_state 0)
          (frame_events [(3, 1)])).outs
    ∧ (dispatch_run c2_cfg (init_disp_state 0)
        (frame_events [(3, 1)] ++ QueueEvent.timeout :: [])).guis
      = (dispatch_run c2_cfg (init_disp_state 0)
          (frame_events [(3, 1)])).guis
    ∧ (dispatch_run c2_cfg (init_disp_state 0)
        (frame_events [(3, 1)] ++ QueueEvent.timeout :: [])).final
      = (dispatch_run c2_cfg (init_disp_state 0)
          (frame_events [(3, 1)])).final
    ∧ frame_queue_timeout = 5 := by
  refine C6_starvation_clean_eos c2_cfg [(3, 1)] [] (init_disp_state 0) ?_
  norm_num [frame_events, dispatch_run, dispatch_step, dispatch_tail,
    framerate_refresh, recompute_framerate, init_disp_state, c2_cfg,
    n_fps_frames]

/-! ## Claim C5 — behaviour without a configured output destination -/

/-- Configuration with NO output queue but WITH a processing function:
`self.output_queue.put(...)` is then `None.put(...)`. -/
def c5_cfg : DispCfg ℕ ℕ :=
  { processing_function := some (fun n => n), output_queue := false
  , gui_framerate := 30, swapaxes := id }

/-- C5 counterexample: with the output sink unconfigured but a processing
function attached, the processing step is NOT a no-op — the body raises
`AttributeError` (the code guards on `processing_function`, not on
`output_queue`), and the run aborts with that error instead of
dispatching the frame. -/
theorem C5_counterexample :
    dispatch_step c5_cfg (init_disp_state 0) 0 1
      = ([], [], Except.error PyErr.attributeError)
    ∧ (dispatch_run c5_cfg (init_disp_state 0)
        [QueueEvent.frame 0 1]).ended
      = RunEnd.err PyErr.attributeError := by
  constructor
  · rfl
  · rfl

/-- C5 amended: it is the absence of a processing FUNCTION that makes the
processing step a no-op.  With no processing function the run never
touches the output queue, and its display output, final state and end
condition are identical to those of a configuration with a processing
function and output sink attached (same target rate and frame transform):
the decimation bookkeeping advances the same way. -/
theorem C5_amended {α β : Type} (cfg1 cfg2 : DispCfg α β) (f : α → β)
    (h1 : cfg1.processing_function = none)
    (_h2 : cfg2.processing_function = some f)
    (h2q : cfg2.output_queue = true)
    (hg : cfg1.gui_framerate = cfg2.gui_framerate)
    (hsw : cfg1.swapaxes = cfg2.swapaxes)
    (evs : List (QueueEvent α)) (s : DispState) :
    (dispatch_run cfg1 s evs).guis = (dispatch_run cfg2 s evs).guis
    ∧ (dispatch_run cfg1 s evs).final = (dispatch_run cfg2 s evs).final
    ∧ (dispatch_run cfg1 s evs).ended = (dispatch_run cfg2 s evs).ended
    ∧ (dispatch_run cfg1 s evs).outs = [] := by
  induction evs generalizing s with
  | nil => simp [dispatch_run_nil]
  | cons e evs ih =>
      cases e with
      | timeout => simp [dispatch_run_timeout]
      | frame a now =>
          have hsnd1 := dispatch_step_snd (Or.inl h1) s a now
          have hsnd2 := dispatch_step_snd (Or.inr h2q) s a now
          have htl : dispatch_tail cfg1.gui_framerate cfg1.swapaxes s a now
              = dispatch_tail cfg2.gui_framerate cfg2.swapaxes s a now := by
            rw [hg, hsw]
          have hsame : (dispatch_step cfg1 s a now).2
              = (dispatch_step cfg2 s a now).2 := by
            rw [hsnd1, hsnd2, htl]
          cases h : (dispatch_step cfg1 s a now).2.2 with
          | error e =>
              have h' : (dispatch_step cfg2 s a now).2.2
                  = Except.error e := by rw [← hsame]; exact h
              rw [dispatch_run_frame_err _ h, dispatch_run_frame_err _ h']
              refine ⟨?_, rfl, rfl, ?_⟩
              · show (dispatch_step cfg1 s a now).2.1
                    = (dispatch_step cfg2 s a now).2.1
                rw [hsame]
              · exact dispatch_step_outs_none h1 s a now
          | ok s1 =>
              have h' : (dispatch_step cfg2 s a now).2.2
                  = Except.ok s1 := by rw [← hsame]; exact h
              rw [dispatch_run_frame_ok _ h, dispatch_run_frame_ok _ h']
              obtain ⟨hgui, hfin, hende, hout⟩ := ih s1
              refine ⟨?_, hfin, hende, ?_⟩
              · show (dispatch_step cfg1 s a now).2.1
                    ++ (dispatch_run cfg1 s1 evs).guis
                    = (dispatch_step cfg2 s a now).2.1
                    ++ (dispatch_run cfg2 s1 evs).guis
                rw [hsame, hgui]
              · rw [dispatch_step_outs_none h1 s a now, hout]
                rfl

/-- Witness for C5 amended: a no-processing configuration against `c2_cfg`
on a concrete one-frame run. -/
theorem C5_witness :
    (dispatch_run c1_cfg (init_disp_state 0) [QueueEvent.frame 3 2]).guis
      = (dispatch_run c2_cfg (init_disp_state 0)
          [QueueEvent.frame 3 2]).guis
    ∧ (dispatch_run c1_cfg (init_disp_state 0) [QueueEvent.frame 3 2]).final
      = (dispatch_run c2_cfg (init_disp_state 0)
          [QueueEvent.frame 3 2]).final
    ∧ (dispatch_run c1_cfg (init_disp_state 0) [QueueEvent.frame 3 2]).ended
      = (dispatch_run c2_cfg (init_disp_state 0)
          [QueueEvent.frame 3 2]).ended
    ∧ (dispatch_run c1_cfg (init_disp_state 0) [QueueEvent.frame 3 2]).outs
      = [] := by
  exact C5_amended c1_cfg c2_cfg (fun n => n + 1) rfl rfl rfl rfl rfl
    [QueueEvent.frame 3 2] (init_disp_state 0)

/-! ## Claim C7 — the signal is re-checked after the poll, before the read -/

/-- C7: in every iteration the termination signal is re-checked after the
control poll and before the device read.  If the signal first reads set at
iteration k, the loop exits via the signal (`true`), exactly the first k
pending frames were read and pushed — no further frame is read or pushed —
while the control queue was still polled k + 1 times (the final iteration
polls, sees the signal, and breaks before the read). -/
theorem C7_signal_checked_before_read (k : ℕ) (rest : List Bool) :
    ∀ st : XimeaState α,
      (ximea_run (List.replicate k false ++ true :: rest) st).2 = true
      ∧ (ximea_run (List.replicate k false ++ true :: rest) st).1.pushed
          = st.pushed ++ st.pending.take k
      ∧ (ximea_run (List.replicate k false ++ true :: rest) st).1.pending
          = st.pending.drop k
      ∧ (ximea_run (List.replicate k false ++ true :: rest) st).1.control
          = st.control.drop (k + 1) := by
  induction k with
  | zero =>
      intro st
      rw [show List.replicate 0 false ++ true :: rest = true :: rest from rfl,
        ximea_run_true_cons]
      refine ⟨rfl, ?_, ?_, ?_⟩
      · rw [ximea_poll_control_pushed]; simp
      · rw [ximea_poll_control_pending]; simp
      · rw [ximea_poll_control_control]
  | succ k ih =>
      intro st
      rw [List.replicate_succ, List.cons_append, ximea_run_false_cons]
      obtain ⟨h1, h2, h3, h4⟩ := ih (ximea_capture_step (ximea_poll_control st))
      refine ⟨h1, ?_, ?_, ?_⟩
      · rw [h2, ximea_capture_step_pushed, ximea_capture_step_pending,
          ximea_poll_control_pushed, ximea_poll_control_pending,
          List.append_assoc]
        congr 1
        rw [show k + 1 = 1 + k from Nat.add_comm k 1, List.take_add]
      · rw [h3, ximea_capture_step_pending, ximea_poll_control_pending,
          List.drop_drop]
        rw [Nat.add_comm]
      · rw [h4, ximea_capture_step_control, ximea_poll_control_control,
          List.drop_drop]
        congr 1
        omega

/-! ## Claim C3 — display decimation -/

/-- The number of display puts a run of `n` frames performs when the
decimation-phase counter starts at `p` and the stride is constantly
`strd`: one put whenever the phase is zero, the phase advancing by one
modulo the stride after every frame. -/
def display_count (strd : ℕ) : ℕ → ℕ → ℕ
  | _, 0 => 0
  | p, Nat.succ n => (if p = 0 then 1 else 0) + display_count strd ((p + 1) % strd) n

lemma display_count_zero_of_pos (strd : ℕ) :
    ∀ (m q : ℕ), 0 < q → q + m ≤ strd → display_count strd q m = 0 := by
  intro m
  induction m with
  | zero => intro q _ _; rfl
  | succ n ih =>
      intro q hq hle
      rw [show display_count strd q (n + 1)
          = (if q = 0 then 1 else 0) + display_count strd ((q + 1) % strd) n
        from rfl]
      rw [if_neg hq.ne']
      by_cases hlt : q + 1 < strd
      · rw [Nat.mod_eq_of_lt hlt]
        rw [ih (q + 1) (Nat.succ_pos q) (by omega)]
      · have hn : n = 0 := by omega
        subst hn
        rfl

lemma display_count_shift (strd : ℕ) :
    ∀ (k p n : ℕ), 0 < p → 0 < k → p + k = strd →
      display_count strd p (k + n) = display_count strd 0 n := by
  intro k
  induction k with
  | zero => intro p n _ hk _; exact absurd hk (lt_irrefl 0)
  | succ k ih =>
      intro p n hp _ hpk
      rw [show k + 1 + n = (k + n) + 1 from by omega]
      rw [show display_count strd p ((k + n) + 1)
          = (if p = 0 then 1 else 0)
            + display_count strd ((p + 1) % strd) (k + n) from rfl]
      rw [if_neg hp.ne']
      cases k with
      | zero =>
          have hmod : (p + 1) % strd = 0 := by
            rw [show p + 1 = strd from by omega]
            exact Nat.mod_self strd
          rw [hmod]
          simp
      | succ k' =>
          have hlt : p + 1 < strd := by omega
          rw [Nat.mod_eq_of_lt hlt]
          rw [ih (p + 1) n (Nat.succ_pos p) (Nat.succ_pos k') (by omega)]
          simp

lemma display_count_window (strd : ℕ) (hs : 0 < strd) :
    ∀ p, p < strd → display_count strd p strd = 1 := by
  have hzero1 : ∀ j, 1 + j ≤ strd → display_count strd 1 j = 0 := by
    intro j hj
    exact display_count_zero_of_pos strd j 1 one_pos hj
  have hbase : ∀ p, 0 < p → p ≤ strd → display_count strd 0 p = 1 := by
    intro p hp hple
    obtain ⟨j, rfl⟩ : ∃ j, p = j + 1 := ⟨p - 1, by omega⟩
    rw [show display_count strd 0 (j + 1)
        = (if (0 : ℕ) = 0 then 1 else 0)
          + display_count strd ((0 + 1) % strd) j from rfl]
    rw [if_pos rfl]
    cases j with
    | zero => rfl
    | succ j' =>
        have hstrd2 : 1 < strd := by omega
        rw [show (0 + 1) % strd = 1 from Nat.mod_eq_of_lt (by omega)]
        rw [hzero1 (j' + 1) (by omega)]
  intro p hp
  by_cases hp0 : p = 0
  · subst hp0
    exact hbase strd hs le_rfl
  · have hppos : 0 < p := Nat.pos_of_ne_zero hp0
    have hk : p + (strd - p) = strd := by omega
    have h1 : display_count strd p strd
        = display_count strd p ((strd - p) + p) := by
      rw [show (strd - p) + p = strd from by omega]
    rw [h1, display_count_shift strd (strd - p) p p hppos (by omega) (by omega)]
    exact hbase p hppos hp.le

/-- The gui-put count of an error-free, timeout-free run whose states all
carry the same stride `strd` is governed by `display_count`. -/
lemma dispatch_run_guis_length {α β : Type} (cfg : DispCfg α β) (strd : ℕ) :
    ∀ (pairs : List (α × ℚ)) (s : DispState),
      (dispatch_run cfg s (frame_events pairs)).ended = RunEnd.pending →
      (∀ st ∈ dispatch_states cfg s (frame_events pairs),
          st.every_x = strd) →
      (dispatch_run cfg s (frame_events pairs)).guis.length
        = display_count strd s.self_i pairs.length := by
  intro pairs
  induction pairs with
  | nil =>
      intro s hend hall
      simp [frame_events_nil, dispatch_run_nil]
      rfl
  | cons p rest ih =>
      intro s hend hall
      rw [frame_events_cons] at hend hall ⊢
      cases h : (dispatch_step cfg s p.1 p.2).2.2 with
      | error e =>
          rw [dispatch_run_frame_err _ h] at hend
          cases hend
      | ok s1 =>
          rw [dispatch_run_frame_ok _ h] at hend ⊢
          rw [dispatch_states_frame_ok _ h] at hall
          have htl : dispatch_tail cfg.gui_framerate cfg.swapaxes s p.1 p.2
              = ((dispatch_step cfg s p.1 p.2).2.1, Except.ok s1) := by
            rw [← dispatch_step_ok_snd h, ← h]
          obtain ⟨hgs, hself, s1', hrefresh, hex, -, -, -⟩ :=
            dispatch_tail_ok htl
          have hs1 : s1.every_x = strd :=
            hall s1 (List.mem_cons_of_mem _ (self_mem_dispatch_states cfg s1 _))
          have hall' : ∀ st ∈ dispatch_states cfg s1 (frame_events rest),
              st.every_x = strd :=
            fun st hst => hall st (List.mem_cons_of_mem _ hst)
          rw [List.length_append, ih s1 hend hall', hgs]
          rw [show (p :: rest).length = rest.length + 1 from rfl]
          rw [show display_count strd s.self_i (rest.length + 1)
              = (if s.self_i = 0 then 1 else 0)
                + display_count strd ((s.self_i + 1) % strd) rest.length
            from rfl]
          rw [hself, hs1]
          by_cases h0 : s.self_i = 0
          · simp [h0]
          · simp [h0]

/-- C3: (1) a successful loop body puts the frame on the gui queue exactly
when the decimation-phase counter `self.i` is zero, and always advances
the counter by one modulo the current (possibly just-recomputed) stride;
(2) consequently, over any window of `strd` consecutive processed frames
during which the stride is constantly `strd` (and the phase, as always,
below the stride), exactly one frame is forwarded to the display sink. -/
theorem C3_display_decimation {α β : Type} :
    (∀ (cfg : DispCfg α β) (s : DispState) (a : α) (now : ℚ)
        (os : List β) (gs : List α) (s' : DispState),
        dispatch_step cfg s a now = (os, gs, Except.ok s') →
        gs = (if s.self_i = 0 then [cfg.swapaxes a] else [])
        ∧ s'.self_i = (s.self_i + 1) % s'.every_x)
    ∧ (∀ (cfg : DispCfg α β) (pairs : List (α × ℚ)) (s : DispState)
        (strd : ℕ),
        0 < strd → s.self_i < strd →
        (dispatch_run cfg s (frame_events pairs)).ended = RunEnd.pending →
        (∀ st ∈ dispatch_states cfg s (frame_events pairs),
            st.every_x = strd) →
        pairs.length = strd →
        (dispatch_run cfg s (frame_events pairs)).guis.length = 1) := by
  constructor
  · intro cfg s a now os gs s' h
    have h22 : (dispatch_step cfg s a now).2.2 = Except.ok s' := by
      rw [h]
    have htl : dispatch_tail cfg.gui_framerate cfg.swapaxes s a now
        = (gs, Except.ok s') := by
      rw [← dispatch_step_ok_snd h22, h]
    obtain ⟨hgs, hself, -⟩ := dispatch_tail_ok htl
    exact ⟨hgs, hself⟩
  · intro cfg pairs s strd hs hphase hend hall hlen
    rw [dispatch_run_guis_length cfg strd pairs s hend hall, hlen]
    exact display_count_window strd hs s.self_i hphase

/-- Frame/time pairs realizing the spec's scenario R = 300, D = 30: ten
frames, the tenth arriving 1/30 s after loop start, so the refreshed
stride is again 10. -/
def c3_pairs : List (ℕ × ℚ) :=
  [ (0, 1/300), (1, 2/300), (2, 3/300), (3, 4/300), (4, 5/300)
  , (5, 6/300), (6, 7/300), (7, 8/300), (8, 9/300), (9, 10/300) ]

/-- Witness for C3: the per-step characterization at a concrete step, and
the spec scenario (R = 300, D = 30, stride 10): the ten-frame window
forwards exactly one frame to the display sink. -/
theorem C3_witness :
    (([5] : List ℕ)
        = (if (init_disp_state 0).self_i = 0 then [c1_cfg.swapaxes 5] else [])
      ∧ (⟨1, 1, 10, 100, 0⟩ : DispState).self_i
          = ((init_disp_state 0).self_i + 1)
            % (⟨1, 1, 10, 100, 0⟩ : DispState).every_x)
    ∧ (dispatch_run c1_cfg (init_disp_state 0)
        (frame_events c3_pairs)).guis.length = 1 := by
  constructor
  · exact C3_display_decimation.1 c1_cfg (init_disp_state 0) 5 1 [] [5]
      ⟨1, 1, 10, 100, 0⟩ rfl
  · refine C3_display_decimation.2 c1_cfg c3_pairs (init_disp_state 0) 10
      (by norm_num) (by norm_num [init_disp_state]) ?_ ?_ rfl
    · norm_num [c3_pairs, frame_events, dispatch_run, dispatch_step,
        dispatch_tail, framerate_refresh, recompute_framerate,
        init_disp_state, c1_cfg, n_fps_frames, pyInt]
    · norm_num [c3_pairs, frame_events, dispatch_states, dispatch_step,
        dispatch_tail, framerate_refresh, recompute_framerate,
        init_disp_state, c1_cfg, n_fps_frames, pyInt]
      decide

/-! ## Claim C10 — the first frame is always displayed -/

/-- A successful step whose window counter was not at the refresh point
leaves stride, framerate and window bookkeeping untouched except for
`i`. -/
lemma dispatch_step_ok_no_refresh {cfg : DispCfg α β} {s s' : DispState}
    {a : α} {now : ℚ} (hi : s.i ≠ n_fps_frames - 1)
    (h : (dispatch_step cfg s a now).2.2 = Except.ok s') :
    s'.every_x = s.every_x ∧ s'.i = (s.i + 1) % n_fps_frames
    ∧ s'.current_framerate = s.current_framerate
    ∧ s'.previous_time = s.previous_time := by
  have htl : dispatch_tail cfg.gui_framerate cfg.swapaxes s a now
      = ((dispatch_step cfg s a now).2.1, Except.ok s') := by
    rw [← dispatch_step_ok_snd h, ← h]
  obtain ⟨-, -, s1, hrefresh, hex, hii, hcf, hpt⟩ := dispatch_tail_ok htl
  have hs1 : s = s1 := by
    unfold framerate_refresh at hrefresh
    rw [if_neg hi] at hrefresh
    simpa using hrefresh
  rw [← hs1] at hex hii hcf hpt
  exact ⟨hex, hii, hcf, hpt⟩

/-- Before the first measurement window completes (fewer frames than
`n_fps_frames - 1 - i` consumed), every state on the trace still carries
the initial stride. -/
lemma dispatch_states_every_x_const {cfg : DispCfg α β} :
    ∀ (pairs : List (α × ℚ)) (s : DispState),
      s.i + pairs.length ≤ n_fps_frames - 1 →
      ∀ st ∈ dispatch_states cfg s (frame_events pairs),
        st.every_x = s.every_x := by
  intro pairs
  induction pairs with
  | nil =>
      intro s _ st hst
      rw [frame_events_nil] at hst
      simp [dispatch_states] at hst
      rw [hst]
  | cons p rest ih =>
      intro s hlen st hst
      rw [frame_events_cons] at hst
      cases h : (dispatch_step cfg s p.1 p.2).2.2 with
      | error e =>
          rw [show dispatch_states cfg s
                (QueueEvent.frame p.1 p.2 :: frame_events rest) = [s]
            from by simp [dispatch_states, h]] at hst
          simp at hst
          rw [hst]
      | ok s1 =>
          rw [dispatch_states_frame_ok _ h] at hst
          rcases List.mem_cons.mp hst with rfl | hst'
          · rfl
          · have hi : s.i ≠ n_fps_frames - 1 := by
              simp only [n_fps_frames, List.length_cons] at hlen ⊢
              omega
            obtain ⟨hex, hii, -, -⟩ := dispatch_step_ok_no_refresh hi h
            have hlt : s.i + 1 < n_fps_frames := by
              simp only [n_fps_frames, List.length_cons] at hlen ⊢
              omega
            have hii' : s1.i = s.i + 1 := by
              rw [hii, Nat.mod_eq_of_lt hlt]
            have hlen1 : s1.i + rest.length ≤ n_fps_frames - 1 := by
              rw [hii']
              simp only [n_fps_frames, List.length_cons] at hlen ⊢
              omega
            rw [← hex]
            exact ih s1 hlen1 st hst'

/-- C10: for every well-formed configuration (whatever the target display
rate) and every nonempty frame sequence, the very first popped frame is
forwarded to the display sink; the decimation-phase counter starts at 0,
the stride starts at its hard-coded initial value 10, and stays 10 on
every state reached before the first ten-frame window completes. -/
theorem C10_first_frame_displayed {α β : Type} (cfg : DispCfg α β)
    (t0 : ℚ) (p : α × ℚ) (rest : List (α × ℚ))
    (hwf : cfg.processing_function = none ∨ cfg.output_queue = true) :
    (dispatch_run cfg (init_disp_state t0)
        (frame_events (p :: rest))).guis.head?
      = some (cfg.swapaxes p.1)
    ∧ (init_disp_state t0).self_i = 0
    ∧ (init_disp_state t0).every_x = 10
    ∧ (∀ st ∈ dispatch_states cfg (init_disp_state t0)
          (frame_events ((p :: rest).take 9)),
        st.every_x = 10) := by
  have htail : dispatch_tail cfg.gui_framerate cfg.swapaxes
      (init_disp_state t0) p.1 p.2
      = ([cfg.swapaxes p.1], Except.ok ⟨1, 1, 10, 100, t0⟩) := rfl
  have hok : (dispatch_step cfg (init_disp_state t0) p.1 p.2).2.2
      = Except.ok ⟨1, 1, 10, 100, t0⟩ := by
    rw [show (dispatch_step cfg (init_disp_state t0) p.1 p.2).2.2
        = ((dispatch_step cfg (init_disp_state t0) p.1 p.2).2).2 from rfl,
      dispatch_step_snd hwf, htail]
  refine ⟨?_, rfl, rfl, ?_⟩
  · rw [frame_events_cons, dispatch_run_frame_ok _ hok]
    show ((dispatch_step cfg (init_disp_state t0) p.1 p.2).2.1
        ++ (dispatch_run cfg ⟨1, 1, 10, 100, t0⟩ (frame_events rest)).guis).head?
      = some (cfg.swapaxes p.1)
    rw [show (dispatch_step cfg (init_disp_state t0) p.1 p.2).2.1
        = (dispatch_tail cfg.gui_framerate cfg.swapaxes
            (init_disp_state t0) p.1 p.2).1 from by rw [dispatch_step_snd hwf],
      htail]
    rfl
  · intro st hst
    have := dispatch_states_every_x_const ((p :: rest).take 9)
      (init_disp_state t0) ?_ st hst
    · rw [this]; rfl
    · rw [show (init_disp_state t0).i = 0 from rfl]
      have : ((p :: rest).take 9).length ≤ 9 := by
        rw [List.length_take]
        omega
      simp only [n_fps_frames]
      omega

/-- Witness for C10: a concrete one-frame run with the default-like
configuration displays its only frame first. -/
theorem C10_witness :
    (dispatch_run c1_cfg (init_disp_state 0)
        (frame_events [((4 : ℕ), (1 : ℚ))])).guis.head?
      = some (c1_cfg.swapaxes 4)
    ∧ (init_disp_state 0).self_i = 0
    ∧ (init_disp_state 0).every_x = 10
    ∧ (∀ st ∈ dispatch_states c1_cfg (init_disp_state 0)
          (frame_events ([((4 : ℕ), (1 : ℚ))].take 9)),
        st.every_x = 10) := by
  exact C10_first_frame_displayed c1_cfg 0 (4, 1) [] (Or.inl rfl)
